import Mathlib

/-!
Shallow embedding of the ViewMapper MCP server
(src/viewmapper-mcp-server/mcp_server.py) and proofs about its
prompt-composition and call-handling behaviour.

Python strings are modelled as Lean `String` (a list of characters);
`s[:n]` becomes `pyTake`, `s.strip()` becomes `pyStrip`, and
`sep.join(parts)` becomes `joinWith`. The process-wide dict
`conversation_histories` is modelled as an association list with
`storeGet`/`storeSet` mirroring `dict.get(k, [])` and `dict[k] = v`.
The subprocess call is modelled by an `InvokeOutcome` parameter that
says how `subprocess.run` would conclude; the handler `call_tool`
returns the produced content list, the updated store, and the argument
vector it invoked the external program with (`none` when validation
failed before any invocation).
-/

set_option maxRecDepth 4000

namespace ViewMapper

/-- One conversation message: `{"role": ..., "content": ...}`. -/
structure Turn where
  role : String
  content : String
deriving DecidableEq, Repr

/-- Python `s[:n]`: the first `n` characters of `s` (all of `s` if shorter). -/
def pyTake (s : String) (n : Nat) : String :=
  ⟨s.data.take n⟩

/-- Python `s.strip()`: remove whitespace from both ends. -/
def pyStrip (s : String) : String :=
  ⟨(((s.data.dropWhile Char.isWhitespace).reverse).dropWhile Char.isWhitespace).reverse⟩

/-- Python `sep.join(parts)`. -/
def joinWith (sep : String) : List String → String
  | [] => ""
  | [x] => x
  | x :: y :: xs => x ++ sep ++ joinWith sep (y :: xs)

/-- The body of the `for msg in recent_history` loop of
`build_prompt_with_history`: render one message as `"<Role>: <content>"`,
truncating assistant content longer than 200 characters to its first 200
characters plus `"..."`. -/
def renderMsg (msg : Turn) : String :=
  let role := if msg.role = "user" then "User" else "Assistant"
  let content := msg.content
  let content := if msg.role = "assistant" ∧ 200 < content.length then
      pyTake content 200 ++ "..."
    else content
  role ++ ": " ++ content

/-- `max_history_turns = 3` from the source. -/
def max_history_turns : Nat := 3

/-- `history[-(max_history_turns * 2):]`: the last 6 entries
(Python negative slice, all entries when fewer than 6 exist). -/
def recent_history (history : List Turn) : List Turn :=
  history.drop (history.length - max_history_turns * 2)

/-- The `prompt_parts` list built by `build_prompt_with_history` for a
non-empty history: the header, one rendered line per recent message, a
blank line, and the current-question line. -/
def prompt_parts (history : List Turn) (current_query : String) : List String :=
  "Previous conversation:" :: (recent_history history).map renderMsg
    ++ ["", "Current question: " ++ current_query]

/-- `build_prompt_with_history(history, current_query)` from the source. -/
def build_prompt_with_history (history : List Turn) (current_query : String) : String :=
  if history = [] then current_query
  else joinWith "\n" (prompt_parts history current_query)

/-- A `TextContent(type="text", text=...)` protocol response unit. -/
structure TextContent where
  type : String
  text : String
deriving DecidableEq, Repr

/-- How the `subprocess.run` call concludes: a completed process with an
exit code, captured stdout and stderr; a `TimeoutExpired`; a
`FileNotFoundError`; or any other exception with its description. -/
inductive InvokeOutcome where
  | completed (returncode : Int) (stdout stderr : String)
  | timeoutExpired
  | fileNotFound
  | unexpected (message : String)
deriving DecidableEq, Repr

/-- Startup configuration read from the environment. -/
structure Config where
  VIEWMAPPER_JAR : String
  CONNECTION : String
  VERBOSE : Bool
deriving DecidableEq, Repr

/-- The `conversation_histories` dict: session id → list of turns. -/
abbrev HistoryStore := List (String × List Turn)

/-- `conversation_histories.get(session_id, [])`. -/
def storeGet : HistoryStore → String → List Turn
  | [], _ => []
  | (k1, v1) :: rest, k => if k1 = k then v1 else storeGet rest k

/-- `conversation_histories[session_id] = v`. -/
def storeSet : HistoryStore → String → List Turn → HistoryStore
  | [], k, v => [(k, v)]
  | (k1, v1) :: rest, k, v =>
      if k1 = k then (k, v) :: rest else (k1, v1) :: storeSet rest k v

/-- The empty store the process starts with. -/
def emptyStore : HistoryStore := []

/-- `get_session_id()`: always the single default session. -/
def get_session_id : String := "default"

/-- The argument vector `cmd` built for the Java CLI. -/
def buildCmd (cfg : Config) (enhanced_query : String) : List String :=
  ["java", "-jar", cfg.VIEWMAPPER_JAR,
   "run",
   enhanced_query,
   "--connection", cfg.CONNECTION,
   "--output", "text"]
    ++ if cfg.VERBOSE then ["--verbose"] else []

/-- The result of one `call_tool` invocation: the returned content list,
the store after the call, and the command the external program was
invoked with (`none` when validation rejected the call first). -/
structure CallResult where
  contents : List TextContent
  store : HistoryStore
  invocation : Option (List String)
deriving DecidableEq, Repr

/-- `call_tool(name, arguments)` from the source, as a pure step function
over the store. `arguments` is the `arguments.get("query")` lookup
(`none` when the key is absent), and `outcome` says how the subprocess
invocation concludes when one happens. -/
def call_tool (cfg : Config) (store : HistoryStore) (name : String)
    (arguments : Option String) (outcome : InvokeOutcome) : CallResult :=
  if name ≠ "explore_trino_views" then
    { contents := [{ type := "text", text := "❌ Unknown tool: " ++ name }],
      store := store, invocation := none }
  else
    match arguments with
    | none =>
      { contents := [{ type := "text", text := "❌ Error: 'query' parameter is required" }],
        store := store, invocation := none }
    | some query =>
      if query = "" then
        { contents := [{ type := "text", text := "❌ Error: 'query' parameter is required" }],
          store := store, invocation := none }
      else
        let session_id := get_session_id
        let history := storeGet store session_id
        let enhanced_query := build_prompt_with_history history query
        let cmd := buildCmd cfg enhanced_query
        match outcome with
        | InvokeOutcome.completed returncode stdout stderr =>
          if returncode ≠ 0 then
            let error_msg := if pyStrip stderr = "" then "Unknown error" else pyStrip stderr
            { contents := [{ type := "text", text := "❌ ViewMapper Error:\n" ++ error_msg }],
              store := store, invocation := some cmd }
          else
            let response := pyStrip stdout
            let history1 := history ++
              [{ role := "user", content := query }, { role := "assistant", content := response }]
            { contents := [{ type := "text", text := response }],
              store := storeSet store session_id history1, invocation := some cmd }
        | InvokeOutcome.timeoutExpired =>
          { contents :=
              [{ type := "text",
                 text := "⏱️ Request timed out after 60 seconds. Try a simpler query or smaller dataset." }],
            store := store, invocation := some cmd }
        | InvokeOutcome.fileNotFound =>
          { contents :=
              [{ type := "text",
                 text := "❌ Error: Java or JAR file not found. Check VIEWMAPPER_JAR=" ++ cfg.VIEWMAPPER_JAR }],
            store := store, invocation := some cmd }
        | InvokeOutcome.unexpected message =>
          { contents := [{ type := "text", text := "❌ Unexpected error: " ++ message }],
            store := store, invocation := some cmd }

/-- One request to the handler: the tool name, the `query` argument, and
how the subprocess invocation would conclude. -/
structure CallInput where
  name : String
  arguments : Option String
  outcome : InvokeOutcome
deriving DecidableEq, Repr

/-- Run a finite sequence of handler calls, threading the store. -/
def runCalls (cfg : Config) (store : HistoryStore) : List CallInput → HistoryStore
  | [] => store
  | c :: cs => runCalls cfg (call_tool cfg store c.name c.arguments c.outcome).store cs

/-- Spec-side notion: the most recent `n` entries of a history, in their
original order. -/
def mostRecent (n : Nat) (l : List Turn) : List Turn :=
  (l.reverse.take n).reverse

/-- `needle` occurs contiguously inside `hay`. -/
def containsStr (hay needle : String) : Prop :=
  ∃ a b, hay.data = a ++ needle.data ++ b

end ViewMapper

namespace ViewMapper

/-- The Python negative slice used by the composer selects exactly the
most recent six entries. -/
theorem recent_history_eq_mostRecent (history : List Turn) :
    recent_history history = mostRecent 6 history := by
  have h := List.rtake_eq_reverse_take_reverse (l := history) (n := 6)
  simpa [List.rtake, recent_history, mostRecent, max_history_turns] using h

/-- C3: composing with an empty history returns the current query unchanged. -/
theorem compose_empty_id (q : String) : build_prompt_with_history [] q = q := rfl

theorem containsStr_self (s : String) : containsStr s s :=
  ⟨[], [], by simp⟩

theorem containsStr_append_left (x y n : String) (h : containsStr y n) :
    containsStr (x ++ y) n := by
  obtain ⟨a, b, hab⟩ := h
  exact ⟨x.data ++ a, b, by simp [String.data_append, hab]⟩

theorem containsStr_append_right (x y n : String) (h : containsStr x n) :
    containsStr (x ++ y) n := by
  obtain ⟨a, b, hab⟩ := h
  exact ⟨a, b ++ y.data, by simp [String.data_append, hab]⟩

/-- Every element of `parts` occurs contiguously in the joined string. -/
theorem joinWith_mem_containsStr (sep : String) :
    ∀ (parts : List String) (s : String), s ∈ parts → containsStr (joinWith sep parts) s
  | [x], s, hs => by
      rw [List.mem_singleton] at hs
      subst hs
      exact containsStr_self s
  | x :: y :: xs, s, hs => by
      rcases List.mem_cons.mp hs with h | h
      · subst h
        exact ⟨[], sep.data ++ (joinWith sep (y :: xs)).data,
          by simp [joinWith, String.data_append]⟩
      · obtain ⟨a, b, hab⟩ := joinWith_mem_containsStr sep (y :: xs) s h
        exact ⟨x.data ++ sep.data ++ a, b,
          by simp [joinWith, String.data_append, hab]⟩

/-- C1: for a non-empty history, the composed prompt renders exactly the
most recent six entries (so every older entry is excluded), each rendered
recent entry occurs in the output, at most six entries are rendered, and
a history shorter than six entries is rendered in full. -/
theorem compose_window (history : List Turn) (q : String) (hne : history ≠ []) :
    build_prompt_with_history history q =
      joinWith "\n" ("Previous conversation:" :: (mostRecent 6 history).map renderMsg
        ++ ["", "Current question: " ++ q])
    ∧ (∀ m ∈ mostRecent 6 history,
        containsStr (build_prompt_with_history history q) (renderMsg m))
    ∧ (mostRecent 6 history).length = min 6 history.length
    ∧ (history.length < 6 → mostRecent 6 history = history) := by
  have hparts : prompt_parts history q =
      "Previous conversation:" :: (mostRecent 6 history).map renderMsg
        ++ ["", "Current question: " ++ q] := by
    rw [prompt_parts, recent_history_eq_mostRecent]
  have hbuild : build_prompt_with_history history q = joinWith "\n" (prompt_parts history q) := by
    rw [build_prompt_with_history, if_neg hne]
  refine ⟨by rw [hbuild, hparts], ?_, ?_, ?_⟩
  · intro m hm
    rw [hbuild]
    refine joinWith_mem_containsStr "\n" (prompt_parts history q) (renderMsg m) ?_
    rw [hparts]
    exact List.mem_cons_of_mem _ (List.mem_append_left _ (List.mem_map_of_mem renderMsg hm))
  · simp [mostRecent]
  · intro hlt
    have h6 : history.reverse.length ≤ 6 := by
      rw [List.length_reverse]; omega
    simp [mostRecent, List.take_of_length_le h6]

/-- A concrete seven-entry history used to witness the windowing theorem. -/
def histSeven : List Turn :=
  [⟨"user", "q1"⟩, ⟨"assistant", "a1"⟩, ⟨"user", "q2"⟩, ⟨"assistant", "a2"⟩,
   ⟨"user", "q3"⟩, ⟨"assistant", "a3"⟩, ⟨"user", "q4"⟩]

/-- Witness for `compose_window` at a concrete seven-entry history. -/
theorem compose_window_witness :
    histSeven ≠ [] ∧
    (build_prompt_with_history histSeven "Q" =
      joinWith "\n" ("Previous conversation:" :: (mostRecent 6 histSeven).map renderMsg
        ++ ["", "Current question: " ++ "Q"])
    ∧ (∀ m ∈ mostRecent 6 histSeven,
        containsStr (build_prompt_with_history histSeven "Q") (renderMsg m))
    ∧ (mostRecent 6 histSeven).length = min 6 histSeven.length
    ∧ (histSeven.length < 6 → mostRecent 6 histSeven = histSeven)) :=
  ⟨by decide, compose_window histSeven "Q" (by decide)⟩

/-- C2: assistant content longer than 200 characters is rendered as its
first 200 characters followed by the literal `"..."`; assistant content of
length at most 200 and user content of any length are rendered unchanged. -/
theorem renderMsg_eq (msg : Turn) :
    renderMsg msg =
      (if msg.role = "user" then "User" else "Assistant") ++ ": " ++
        (if msg.role = "assistant" ∧ 200 < msg.content.length then
          pyTake msg.content 200 ++ "..."
        else msg.content) := rfl

theorem renderMsg_truncation (m : Turn) :
    (m.role = "assistant" → 200 < m.content.length →
        renderMsg m = "Assistant: " ++ (pyTake m.content 200 ++ "...")
          ∧ (pyTake m.content 200).length = 200)
    ∧ (m.role = "assistant" → m.content.length ≤ 200 →
        renderMsg m = "Assistant: " ++ m.content)
    ∧ (m.role = "user" → renderMsg m = "User: " ++ m.content) := by
  obtain ⟨role, content⟩ := m
  have hA : ("Assistant" ++ ": " : String) = "Assistant: " := by decide
  have hU : ("User" ++ ": " : String) = "User: " := by decide
  refine ⟨?_, ?_, ?_⟩
  · intro hr hl
    simp only at hr hl
    subst hr
    constructor
    · rw [renderMsg_eq]
      simp only
      rw [if_neg (by decide), if_pos ⟨trivial, hl⟩, hA]
    · have hl' : 200 < content.data.length := hl
      show (content.data.take 200).length = 200
      rw [List.length_take]
      omega
  · intro hr hl
    simp only at hr hl
    subst hr
    rw [renderMsg_eq]
    simp only
    rw [if_neg (by decide), if_neg (fun hc => absurd hc.2 (Nat.not_lt.mpr hl)), hA]
  · intro hr
    simp only at hr
    subst hr
    rw [renderMsg_eq]
    simp only
    rw [if_pos trivial, if_neg (fun hc => by exact absurd hc.1 (by decide)), hU]

/-- A 201-character assistant reply used to witness the truncation rule. -/
def longStr : String := ⟨List.replicate 201 'a'⟩

/-- Witness for `renderMsg_truncation` on a 201-character assistant turn. -/
theorem renderMsg_truncation_witness :
    renderMsg ⟨"assistant", longStr⟩ = "Assistant: " ++ (pyTake longStr 200 ++ "...")
      ∧ (pyTake longStr 200).length = 200 :=
  (renderMsg_truncation ⟨"assistant", longStr⟩).1 rfl (by decide)

/-- Reading back after a store update: the written key sees the new
value, every other key is untouched. -/
theorem storeGet_storeSet (store : HistoryStore) (k : String) (v : List Turn) (k' : String) :
    storeGet (storeSet store k v) k' = if k = k' then v else storeGet store k' := by
  induction store with
  | nil => simp [storeSet, storeGet]
  | cons p rest ih =>
    obtain ⟨k1, v1⟩ := p
    by_cases h1 : k1 = k
    · subst h1
      rw [storeSet, if_pos rfl]
      by_cases h2 : k1 = k'
      · subst h2
        rw [storeGet, if_pos rfl, if_pos rfl]
      · rw [storeGet, if_neg h2, if_neg h2, storeGet, if_neg h2]
    · rw [storeSet, if_neg h1]
      by_cases h2 : k1 = k'
      · subst h2
        rw [storeGet, if_pos rfl, storeGet, if_pos rfl, if_neg (fun hk => h1 hk.symm)]
      · rw [storeGet, if_neg h2, ih, storeGet, if_neg h2]

/-- Each handler call either leaves the store untouched or appends
exactly one user/assistant pair to the default session's history. -/
theorem call_tool_store_cases (cfg : Config) (store : HistoryStore) (name : String)
    (arguments : Option String) (outcome : InvokeOutcome) :
    (call_tool cfg store name arguments outcome).store = store ∨
    ∃ u a, (call_tool cfg store name arguments outcome).store =
      storeSet store "default"
        (storeGet store "default" ++ [⟨"user", u⟩, ⟨"assistant", a⟩]) := by
  by_cases hn : name = "explore_trino_views"
  · subst hn
    rcases arguments with _ | q
    · left; simp [call_tool]
    · by_cases hq : q = ""
      · left; simp [call_tool, hq]
      · rcases outcome with ⟨rc, stdout, stderr⟩ | _ | _ | msg
        · by_cases hrc : rc = 0
          · right
            refine ⟨q, pyStrip stdout, ?_⟩
            subst hrc
            simp [call_tool, hq, get_session_id]
          · left; simp [call_tool, hq, hrc]
        · left; simp [call_tool, hq]
        · left; simp [call_tool, hq]
        · left; simp [call_tool, hq]
  · left; simp [call_tool, hn]

/-- The even-length invariant is preserved by any sequence of calls. -/
theorem runCalls_even_aux (cfg : Config) :
    ∀ (calls : List CallInput) (store : HistoryStore),
      (∀ k, (storeGet store k).length % 2 = 0) →
      ∀ k, (storeGet (runCalls cfg store calls) k).length % 2 = 0
  | [], _, h, k => h k
  | c :: cs, store, h, k => by
      refine runCalls_even_aux cfg cs _ ?_ k
      intro k'
      rcases call_tool_store_cases cfg store c.name c.arguments c.outcome with heq | ⟨u, a, heq⟩
      · rw [heq]; exact h k'
      · rw [heq, storeGet_storeSet]
        by_cases hk : "default" = k'
        · rw [if_pos hk]
          have hd := h "default"
          rw [List.length_append]
          simp only [List.length_cons, List.length_nil]
          omega
        · rw [if_neg hk]; exact h k'

/-- C4: starting from the empty store, after any finite sequence of
handler calls every session's stored history has even length; each
single call either leaves the store unchanged or appends exactly one
user/assistant pair to the default session. -/
theorem history_even_invariant (cfg : Config) (calls : List CallInput) (k : String) :
    (storeGet (runCalls cfg emptyStore calls) k).length % 2 = 0 ∧
    ∀ (store : HistoryStore) (name : String) (arguments : Option String)
      (outcome : InvokeOutcome),
      (call_tool cfg store name arguments outcome).store = store ∨
      ∃ u a, (call_tool cfg store name arguments outcome).store =
        storeSet store "default"
          (storeGet store "default" ++ [⟨"user", u⟩, ⟨"assistant", a⟩]) := by
  constructor
  · exact runCalls_even_aux cfg calls emptyStore (fun _ => rfl) k
  · intro store name arguments outcome
    exact call_tool_store_cases cfg store name arguments outcome

/-- C5: on a successful invocation (exit code 0) the response body is
the trimmed stdout, and exactly the pair (user: original query,
assistant: response body) is appended to the default session's history;
in particular the stored entries are the raw query and raw response,
never the augmented prompt. -/
theorem call_tool_success_records (cfg : Config) (store : HistoryStore)
    (q stdout stderr : String) (hq : q ≠ "") :
    (call_tool cfg store "explore_trino_views" (some q)
        (InvokeOutcome.completed 0 stdout stderr)).contents
      = [{ type := "text", text := pyStrip stdout }] ∧
    (call_tool cfg store "explore_trino_views" (some q)
        (InvokeOutcome.completed 0 stdout stderr)).store
      = storeSet store "default"
          (storeGet store "default" ++
            [{ role := "user", content := q },
             { role := "assistant", content := pyStrip stdout }]) := by
  constructor <;> simp [call_tool, hq, get_session_id]

/-- A call is classified `Success` exactly when the tool name matches,
a non-empty query is supplied, and the process completed with exit code 0. -/
def classifiedSuccess (name : String) (arguments : Option String)
    (outcome : InvokeOutcome) : Prop :=
  name = "explore_trino_views" ∧
  (∃ q, arguments = some q ∧ q ≠ "") ∧
  ∃ stdout stderr, outcome = InvokeOutcome.completed 0 stdout stderr

/-- C6: every call that is not classified `Success` leaves the History
Store exactly as it was. -/
theorem call_tool_nonsuccess_preserves (cfg : Config) (store : HistoryStore) (name : String)
    (arguments : Option String) (outcome : InvokeOutcome)
    (h : ¬ classifiedSuccess name arguments outcome) :
    (call_tool cfg store name arguments outcome).store = store := by
  by_cases hn : name = "explore_trino_views"
  · subst hn
    rcases arguments with _ | q
    · simp [call_tool]
    · by_cases hq : q = ""
      · simp [call_tool, hq]
      · rcases outcome with ⟨rc, stdout, stderr⟩ | _ | _ | msg
        · by_cases hrc : rc = 0
          · exact absurd ⟨rfl, ⟨q, rfl, hq⟩, stdout, stderr, by rw [hrc]⟩ h
          · simp [call_tool, hq, hrc]
        · simp [call_tool, hq]
        · simp [call_tool, hq]
        · simp [call_tool, hq]
  · simp [call_tool, hn]

/-- C7: an unsupported tool name yields the unknown-tool error, and a
missing or empty `query` yields the missing-parameter error; in both
cases the store is returned unchanged and no command is invoked
(`invocation = none`). -/
theorem call_tool_validation (cfg : Config) (store : HistoryStore) (name : String)
    (arguments : Option String) (outcome : InvokeOutcome) :
    (name ≠ "explore_trino_views" →
      call_tool cfg store name arguments outcome =
        { contents := [{ type := "text", text := "❌ Unknown tool: " ++ name }],
          store := store, invocation := none }) ∧
    (name = "explore_trino_views" → arguments = none ∨ arguments = some "" →
      call_tool cfg store name arguments outcome =
        { contents := [{ type := "text", text := "❌ Error: 'query' parameter is required" }],
          store := store, invocation := none }) := by
  constructor
  · intro hn
    simp [call_tool, hn]
  · intro hn harg
    subst hn
    rcases harg with h | h <;> subst h <;> simp [call_tool]

/-- `""` occurs in every string. -/
theorem containsStr_of_data_nil (hay : String) (needle : String)
    (h : needle.data = []) : containsStr hay needle :=
  ⟨hay.data, [], by simp [h]⟩

/-- C8: on a non-zero exit code the single response body contains the
trimmed stderr (and equals the fixed error frame followed by it when the
trimmed stderr is non-empty), and contains the literal "Unknown error"
when stderr is empty. -/
theorem call_tool_program_error (cfg : Config) (store : HistoryStore)
    (q stdout stderr : String) (rc : Int) (hq : q ≠ "") (hrc : rc ≠ 0) :
    ∃ body,
      (call_tool cfg store "explore_trino_views" (some q)
          (InvokeOutcome.completed rc stdout stderr)).contents
        = [{ type := "text", text := body }] ∧
      containsStr body (pyStrip stderr) ∧
      (stderr = "" → containsStr body "Unknown error") ∧
      (pyStrip stderr ≠ "" → body = "❌ ViewMapper Error:\n" ++ pyStrip stderr) := by
  refine ⟨"❌ ViewMapper Error:\n" ++
      (if pyStrip stderr = "" then "Unknown error" else pyStrip stderr), ?_, ?_, ?_, ?_⟩
  · simp [call_tool, hq, hrc]
  · by_cases hs : pyStrip stderr = ""
    · exact containsStr_of_data_nil _ _ (by rw [hs])
    · rw [if_neg hs]
      exact containsStr_append_left _ _ _ (containsStr_self _)
  · intro hse
    subst hse
    rw [if_pos (show pyStrip "" = "" from rfl)]
    exact containsStr_append_left _ _ _ (containsStr_self _)
  · intro hs
    rw [if_neg hs]

/-- C9: whatever the tool name, arguments and invocation outcome, the
handler returns a list of exactly one text content unit. -/
theorem call_tool_single_content (cfg : Config) (store : HistoryStore) (name : String)
    (arguments : Option String) (outcome : InvokeOutcome) :
    ∃ t, (call_tool cfg store name arguments outcome).contents
      = [{ type := "text", text := t }] := by
  by_cases hn : name = "explore_trino_views"
  · subst hn
    rcases arguments with _ | q
    · exact ⟨"❌ Error: 'query' parameter is required", by simp [call_tool]⟩
    · by_cases hq : q = ""
      · exact ⟨"❌ Error: 'query' parameter is required", by simp [call_tool, hq]⟩
      · rcases outcome with ⟨rc, stdout, stderr⟩ | _ | _ | msg
        · by_cases hrc : rc = 0
          · subst hrc
            exact ⟨pyStrip stdout, by simp [call_tool, hq]⟩
          · exact ⟨"❌ ViewMapper Error:\n" ++
              (if pyStrip stderr = "" then "Unknown error" else pyStrip stderr),
              by simp [call_tool, hq, hrc]⟩
        · exact ⟨"⏱️ Request timed out after 60 seconds. Try a simpler query or smaller dataset.",
            by simp [call_tool, hq]⟩
        · exact ⟨"❌ Error: Java or JAR file not found. Check VIEWMAPPER_JAR=" ++ cfg.VIEWMAPPER_JAR,
            by simp [call_tool, hq]⟩
        · exact ⟨"❌ Unexpected error: " ++ msg, by simp [call_tool, hq]⟩
  · exact ⟨"❌ Unknown tool: " ++ name, by simp [call_tool, hn]⟩

/-- C10: any non-empty query — in particular one consisting solely of
whitespace — passes validation, and the external program is invoked with
the command built from the prompt composed over that query. -/
theorem call_tool_whitespace_invokes (cfg : Config) (store : HistoryStore)
    (outcome : InvokeOutcome) (w : String) (hw : w ≠ "") :
    (call_tool cfg store "explore_trino_views" (some w) outcome).invocation =
      some (buildCmd cfg (build_prompt_with_history (storeGet store "default") w)) := by
  rcases outcome with ⟨rc, stdout, stderr⟩ | _ | _ | msg
  · by_cases hrc : rc = 0
    · subst hrc
      simp [call_tool, hw, get_session_id]
    · simp [call_tool, hw, hrc, get_session_id]
  · simp [call_tool, hw, get_session_id]
  · simp [call_tool, hw, get_session_id]
  · simp [call_tool, hw, get_session_id]

/-- A concrete configuration used by the witnesses. -/
def sampleCfg : Config :=
  { VIEWMAPPER_JAR := "/fake/path/viewmapper.jar",
    CONNECTION := "test://simple_ecommerce",
    VERBOSE := false }

/-- A concrete one-pair store used by the witnesses. -/
def sampleStore : HistoryStore :=
  [("default",
    [⟨"user", "What are the views?"⟩, ⟨"assistant", "There are 11 views."⟩])]

/-- Witness for `call_tool_success_records` on a concrete successful call. -/
theorem call_tool_success_records_witness :
    ("Show me the diagram" : String) ≠ "" ∧
    ((call_tool sampleCfg sampleStore "explore_trino_views" (some "Show me the diagram")
        (InvokeOutcome.completed 0 " graph TB... " "")).contents
      = [{ type := "text", text := pyStrip " graph TB... " }] ∧
     (call_tool sampleCfg sampleStore "explore_trino_views" (some "Show me the diagram")
        (InvokeOutcome.completed 0 " graph TB... " "")).store
      = storeSet sampleStore "default"
          (storeGet sampleStore "default" ++
            [{ role := "user", content := "Show me the diagram" },
             { role := "assistant", content := pyStrip " graph TB... " }])) :=
  ⟨by decide,
   call_tool_success_records sampleCfg sampleStore "Show me the diagram"
     " graph TB... " "" (by decide)⟩

/-- Witness for `call_tool_nonsuccess_preserves` on a concrete failed call. -/
theorem call_tool_nonsuccess_preserves_witness :
    ¬ classifiedSuccess "explore_trino_views" (some "q")
        (InvokeOutcome.completed 1 "" "Invalid SQL syntax") ∧
    (call_tool sampleCfg sampleStore "explore_trino_views" (some "q")
        (InvokeOutcome.completed 1 "" "Invalid SQL syntax")).store = sampleStore :=
  ⟨by simp [classifiedSuccess],
   call_tool_nonsuccess_preserves sampleCfg sampleStore "explore_trino_views" (some "q")
     (InvokeOutcome.completed 1 "" "Invalid SQL syntax") (by simp [classifiedSuccess])⟩

/-- Witness for `call_tool_validation` on a concrete unknown-tool call. -/
theorem call_tool_validation_witness :
    call_tool sampleCfg sampleStore "bogus_tool" none InvokeOutcome.timeoutExpired =
      { contents := [{ type := "text", text := "❌ Unknown tool: " ++ "bogus_tool" }],
        store := sampleStore, invocation := none } :=
  (call_tool_validation sampleCfg sampleStore "bogus_tool" none
    InvokeOutcome.timeoutExpired).1 (by decide)

/-- Witness for `call_tool_program_error` on a concrete exit-code-1 call. -/
theorem call_tool_program_error_witness :
    ("q" : String) ≠ "" ∧ (1 : Int) ≠ 0 ∧
    ∃ body,
      (call_tool sampleCfg sampleStore "explore_trino_views" (some "q")
          (InvokeOutcome.completed 1 "" " Invalid SQL syntax ")).contents
        = [{ type := "text", text := body }] ∧
      containsStr body (pyStrip " Invalid SQL syntax ") ∧
      ((" Invalid SQL syntax " : String) = "" → containsStr body "Unknown error") ∧
      (pyStrip " Invalid SQL syntax " ≠ "" →
        body = "❌ ViewMapper Error:\n" ++ pyStrip " Invalid SQL syntax ") :=
  ⟨by decide, by decide,
   call_tool_program_error sampleCfg sampleStore "q" "" " Invalid SQL syntax " 1
     (by decide) (by decide)⟩

/-- Witness for `call_tool_whitespace_invokes` on a single-space query. -/
theorem call_tool_whitespace_invokes_witness :
    (" " : String) ≠ "" ∧
    (call_tool sampleCfg emptyStore "explore_trino_views" (some " ")
        (InvokeOutcome.completed 0 "graph TB" "")).invocation =
      some (buildCmd sampleCfg (build_prompt_with_history (storeGet emptyStore "default") " ")) :=
  ⟨by decide,
   call_tool_whitespace_invokes sampleCfg emptyStore
     (InvokeOutcome.completed 0 "graph TB" "") " " (by decide)⟩

end ViewMapper
